import Mathlib

/-!
Shallow embedding of the YouTube audio downloader service (src/main.py):
failure classification, the retry/backoff download loop, transient-file
cleanup, and the request pacer, together with theorems about them.
-/

set_option autoImplicit false

namespace YTDL

/-- Strings are modelled as lists of characters. -/
abbrev Str := List Char

/-- ASCII lowercasing of one character, modelling Python str.lower on the
ASCII range (every keyword the service matches against is ASCII). -/
def lowerChar (c : Char) : Char :=
  if 'A' ≤ c ∧ c ≤ 'Z' then Char.ofNat (c.toNat + 32) else c

/-- str.lower over a whole message. -/
def lower (s : Str) : Str := s.map lowerChar

/-- Does the first list start with the second? Building block for Python
substring containment. -/
def startsWithL : Str → Str → Bool
  | _, [] => true
  | [], _ :: _ => false
  | c :: cs, p :: ps => c == p && startsWithL cs ps

/-- Python substring containment, `pat in s`. -/
def containsSub : Str → Str → Bool
  | [], pat => pat.isEmpty
  | c :: cs, pat => startsWithL (c :: cs) pat || containsSub cs pat

theorem startsWithL_append (p t : Str) : startsWithL (p ++ t) p = true := by
  induction p with
  | nil => cases t <;> rfl
  | cons c cs ih => simp [startsWithL, ih]

theorem containsSub_left (p t : Str) : containsSub (p ++ t) p = true := by
  cases p with
  | nil => cases t <;> simp [containsSub, startsWithL]
  | cons c cs =>
    have h := startsWithL_append (c :: cs) t
    simp [containsSub]
    exact Or.inl h

theorem containsSub_self (p : Str) : containsSub p p = true := by
  have h := containsSub_left p []
  simpa using h

theorem containsSub_append_right (xs ys p : Str) (h : containsSub ys p = true) :
    containsSub (xs ++ ys) p = true := by
  induction xs with
  | nil => simpa using h
  | cons x xt ih =>
    simp [containsSub]
    exact Or.inr ih

/-- The closed set of failure kinds used by the specification. `RateLimited`
is in the taxonomy but is treated identically to `BotDetection` by the code,
whose single bot/rate-limit branch covers both. -/
inductive FailureKind where
  | Timeout
  | BotDetection
  | RateLimited
  | SslError
  | ConversionToolMissing
  | Generic
  deriving DecidableEq

/-- src/main.py line 206: is the diagnostic an ffmpeg/ffprobe error? -/
def isConvToolErr (m : Str) : Bool :=
  containsSub (lower m) (("ffmpeg").toList) || containsSub (lower m) (("ffprobe").toList)

/-- src/main.py line 213: the bot-detection / rate-limit keywords. -/
def botKeywords : List Str :=
  [("bot").toList, ("429").toList, ("too many requests").toList,
   ("precondition check failed").toList, ("sign in to confirm").toList]

/-- src/main.py line 213: does the diagnostic match a bot-detection keyword? -/
def isBotErr (m : Str) : Bool :=
  botKeywords.any (fun k => containsSub (lower m) k)

/-- src/main.py line 227: is the diagnostic an SSL/certificate error? -/
def isSslErr (m : Str) : Bool :=
  containsSub (lower m) (("ssl").toList) || containsSub (lower m) (("certificate").toList)

/-- Failure classification as implemented by the except-branches of
`download_youtube_audio` (src/main.py lines 195-245): the TimeoutExpired
handler fires regardless of message content, then the CalledProcessError
handler checks ffmpeg/ffprobe, then bot keywords, then ssl/certificate,
and otherwise falls through to the generic bucket. -/
def classify (rawMessage : Str) (wasTimeout : Bool) : FailureKind :=
  if wasTimeout then FailureKind.Timeout
  else if isConvToolErr rawMessage then FailureKind.ConversionToolMissing
  else if isBotErr rawMessage then FailureKind.BotDetection
  else if isSslErr rawMessage then FailureKind.SslError
  else FailureKind.Generic

/-- The ordered rule list of the spec (section 4.3), written as the spec
recommends: a list of (keyword set, kind) pairs evaluated top to bottom. -/
def specRules : List (List Str × FailureKind) :=
  [([("ffmpeg").toList, ("ffprobe").toList], FailureKind.ConversionToolMissing),
   (botKeywords, FailureKind.BotDetection),
   ([("ssl").toList, ("certificate").toList], FailureKind.SslError)]

/-- First-match evaluation of an ordered rule list, defaulting to Generic. -/
def firstMatch (m : Str) : List (List Str × FailureKind) → FailureKind
  | [] => FailureKind.Generic
  | (kws, k) :: rest => if kws.any (fun kw => containsSub m kw) then k else firstMatch m rest

/-- The spec's classifier: timeout short-circuits, then the ordered rule
list is applied to the lowercased message. -/
def classifySpec (rawMessage : Str) (wasTimeout : Bool) : FailureKind :=
  if wasTimeout then FailureKind.Timeout else firstMatch (lower rawMessage) specRules

theorem classify_eq_CTM_iff (m : Str) :
    classify m false = FailureKind.ConversionToolMissing ↔ isConvToolErr m = true := by
  unfold classify
  cases h1 : isConvToolErr m <;> cases h2 : isBotErr m <;> cases h3 : isSslErr m <;> simp

theorem classify_eq_Bot_iff (m : Str) :
    classify m false = FailureKind.BotDetection ↔
      (isConvToolErr m = false ∧ isBotErr m = true) := by
  unfold classify
  cases h1 : isConvToolErr m <;> cases h2 : isBotErr m <;> cases h3 : isSslErr m <;> simp

theorem classify_eq_Ssl_iff (m : Str) :
    classify m false = FailureKind.SslError ↔
      (isConvToolErr m = false ∧ isBotErr m = false ∧ isSslErr m = true) := by
  unfold classify
  cases h1 : isConvToolErr m <;> cases h2 : isBotErr m <;> cases h3 : isSslErr m <;> simp

theorem classify_eq_Gen_iff (m : Str) :
    classify m false = FailureKind.Generic ↔
      (isConvToolErr m = false ∧ isBotErr m = false ∧ isSslErr m = false) := by
  unfold classify
  cases h1 : isConvToolErr m <;> cases h2 : isBotErr m <;> cases h3 : isSslErr m <;> simp

theorem classify_ne_RateLimited (m : Str) (wt : Bool) :
    classify m wt ≠ FailureKind.RateLimited := by
  unfold classify
  cases wt <;> cases h1 : isConvToolErr m <;> cases h2 : isBotErr m <;>
    cases h3 : isSslErr m <;> simp

/-- C1: classification of a failed attempt follows the exact ordered rule
list: wasTimeout short-circuits to Timeout regardless of message content;
otherwise case-insensitive substring matching is applied in order (ffmpeg /
ffprobe, then the bot keywords, then ssl / certificate, else Generic), so a
message matching several categories resolves to the first matching rule.
In particular a message containing both "bot" and "ssl" never classifies as
SslError, and classifies as BotDetection whenever the (earlier)
conversion-tool rule does not match it. -/
theorem classify_ordered_rules :
    (∀ raw wt, classify raw wt = classifySpec raw wt) ∧
    (∀ raw, classify raw true = FailureKind.Timeout) ∧
    (∀ raw, containsSub (lower raw) (("bot").toList) = true →
       containsSub (lower raw) (("ssl").toList) = true →
       classify raw false ≠ FailureKind.SslError) ∧
    (∀ raw, containsSub (lower raw) (("bot").toList) = true →
       containsSub (lower raw) (("ssl").toList) = true →
       isConvToolErr raw = false →
       classify raw false = FailureKind.BotDetection) := by
  refine ⟨?_, ?_, ?_, ?_⟩
  · intro raw wt
    cases wt
    · simp only [classify, classifySpec, firstMatch, specRules, if_neg Bool.false_ne_true,
        Bool.false_eq_true, if_false]
      simp [isConvToolErr, isBotErr, isSslErr, List.any]
    · rfl
  · intro raw
    rfl
  · intro raw hbot hssl
    have hb : isBotErr raw = true := by
      refine List.any_eq_true.mpr ?_
      exact ⟨("bot").toList, by simp [botKeywords], hbot⟩
    unfold classify
    cases hc : isConvToolErr raw <;> simp [hb]
  · intro raw hbot hssl hc
    have hb : isBotErr raw = true := by
      refine List.any_eq_true.mpr ?_
      exact ⟨("bot").toList, by simp [botKeywords], hbot⟩
    unfold classify
    simp [hb, hc]

/-- Witness for C1: the message "bot ssl" matches both the bot and ssl
keyword sets and classifies as BotDetection, not SslError. -/
theorem classify_ordered_rules_witness :
    classify (("bot ssl").toList) false ≠ FailureKind.SslError ∧
    classify (("bot ssl").toList) false = FailureKind.BotDetection :=
  ⟨classify_ordered_rules.2.2.1 (("bot ssl").toList) (by decide) (by decide),
   classify_ordered_rules.2.2.2 (("bot ssl").toList) (by decide) (by decide) (by decide)⟩

/-! ## Request pacer (src/main.py lines 34-36 and 118-127) -/

/-- src/main.py line 36: minimum interval between paced sections, in seconds. -/
def MIN_REQUEST_INTERVAL : ℚ := 5

/-- The pacer section of `download_youtube_audio` (lines 118-127), run to
completion without interleaving: read `last_request_time` (`last`), compute
`time_since_last = now - last`; if it is below `MIN_REQUEST_INTERVAL`, await
`asyncio.sleep` for the difference; finally set `last_request_time` to the
current (post-sleep) clock. The sleep is idealized as exact, so the returned
value is both the time at which the paced section begins and the new value
of `last_request_time`. -/
def gateStart (last now : ℚ) : ℚ :=
  let timeSinceLast := now - last
  if timeSinceLast < MIN_REQUEST_INTERVAL then
    now + (MIN_REQUEST_INTERVAL - timeSinceLast)
  else now

/-- C6: for two requests processed one after the other, the second paced
section begins at least `MIN_REQUEST_INTERVAL` after the first one began,
because `last_request_time` is set to the first section's (post-sleep) start
and the second call sleeps for whatever is missing from the interval. -/
theorem pacer_sequential_gap (last0 t1 t2 : ℚ) :
    MIN_REQUEST_INTERVAL ≤ gateStart (gateStart last0 t1) t2 - gateStart last0 t1 := by
  generalize gateStart last0 t1 = s1
  unfold gateStart
  dsimp only
  split <;> linarith

/-- States of one request's pacer section under asyncio cooperative
scheduling. Code between two awaits runs atomically, so the section is two
atomic segments: segment 1 (read the shared `last_request_time`, compare,
and either proceed immediately or begin `await asyncio.sleep`) and
segment 2 (resume from the sleep, write `last_request_time`, proceed). -/
inductive PacerTask where
  | arrived (t : ℚ)
  | sleeping (resume : ℚ)
  | started (s : ℚ)
  deriving DecidableEq

/-- Segment 1 of the pacer section, executed atomically against the shared
`last_request_time` value `last`. On the no-sleep path the write happens in
the same segment; on the sleep path no write happens until segment 2. -/
def pacerSeg1 (last : ℚ) : PacerTask → PacerTask × ℚ
  | PacerTask.arrived t =>
    if t - last < MIN_REQUEST_INTERVAL then
      (PacerTask.sleeping (t + (MIN_REQUEST_INTERVAL - (t - last))), last)
    else (PacerTask.started t, t)
  | s => (s, last)

/-- Segment 2 of the pacer section: the task resumes at its wake-up time,
writes `last_request_time`, and its paced section starts. -/
def pacerSeg2 (last : ℚ) : PacerTask → PacerTask × ℚ
  | PacerTask.sleeping r => (PacerTask.started r, r)
  | s => (s, last)

/-- C7 (failing input): with `last_request_time = 0`, request A arriving at
t = 1 and request B arriving at t = 1.1 may interleave as
A.seg1, B.seg1, A.seg2, B.seg2 — a legal asyncio schedule, because
`await asyncio.sleep` yields between the read and the write. Both segment-1
runs observe the stale value 0, both compute resume time 5, and both paced
sections start at t = 5: a start-to-start gap of 0, not the claimed
`MIN_REQUEST_INTERVAL`. The read-compare-sleep-write sequence is therefore
not a critical section. -/
theorem pacer_race_interleaving :
    pacerSeg1 0 (PacerTask.arrived 1) = (PacerTask.sleeping 5, 0) ∧
    pacerSeg1 0 (PacerTask.arrived (11/10)) = (PacerTask.sleeping 5, 0) ∧
    pacerSeg2 0 (PacerTask.sleeping 5) = (PacerTask.started 5, 5) ∧
    pacerSeg2 5 (PacerTask.sleeping 5) = (PacerTask.started 5, 5) ∧
    ¬ (MIN_REQUEST_INTERVAL ≤ 5 - 5) := by
  refine ⟨?_, ?_, rfl, rfl, ?_⟩
  · norm_num [pacerSeg1, MIN_REQUEST_INTERVAL]
  · norm_num [pacerSeg1, MIN_REQUEST_INTERVAL]
  · norm_num [MIN_REQUEST_INTERVAL]

/-! ## Transient-file cleanup (src/main.py lines 41-48) -/

/-- Outcome of running a piece of Python code: either a value or a raised
exception carrying a message. -/
inductive PyResult (α : Type) where
  | ok (val : α)
  | raised (msg : Str)
  deriving DecidableEq

/-- Environment for one `cleanup_file` call: whether the path exists, and
whether `os.remove` would raise for it. -/
structure CleanupEnv where
  pathExists : Bool
  removeFails : Bool

/-- Model of `os.remove`: raises iff the environment says removal fails. -/
def os_remove (env : CleanupEnv) : PyResult Unit :=
  if env.removeFails then PyResult.raised (("OSError").toList) else PyResult.ok ()

/-- `cleanup_file` from src/main.py lines 41-48: inside a try/except, remove
the file if it exists; any exception is logged and swallowed. Returns the
call's outcome together with whether the file still exists afterwards. -/
def cleanup_file (env : CleanupEnv) : PyResult Unit × Bool :=
  if env.pathExists then
    match os_remove env with
    | PyResult.ok _ => (PyResult.ok (), false)
    | PyResult.raised _ => (PyResult.ok (), true)
  else (PyResult.ok (), false)

/-- Running cleanup and then returning an already-determined primary result:
the result survives iff cleanup does not raise. -/
def respondAfterCleanup (r : Nat × Str) (env : CleanupEnv) : PyResult (Nat × Str) :=
  match (cleanup_file env).1 with
  | PyResult.ok _ => PyResult.ok r
  | PyResult.raised m => PyResult.raised m

/-- C5: `cleanup_file` never raises — a failed deletion is swallowed — so a
deletion failure can never override or mask the primary result already
determined for the request. -/
theorem cleanup_file_never_raises :
    (∀ env : CleanupEnv, (cleanup_file env).1 = PyResult.ok ()) ∧
    (∀ (r : Nat × Str) (env : CleanupEnv), respondAfterCleanup r env = PyResult.ok r) := by
  constructor
  · intro env
    unfold cleanup_file os_remove
    rcases env with ⟨pe, rf⟩
    cases pe <;> cases rf <;> rfl
  · intro r env
    unfold respondAfterCleanup cleanup_file os_remove
    rcases env with ⟨pe, rf⟩
    cases pe <;> cases rf <;> rfl

/-! ## The download loop (src/main.py lines 129-254)

The external world's behaviour at each attempt is an `AttemptSignal`; the
loop body's control flow is translated branch by branch from the three
except-handlers. Sleeps are recorded as the `(lo, hi)` bounds passed to
`random.uniform`, and each executed iteration is recorded in an event
trace. -/

/-- What the world does for one invocation of the external tool:
the subprocess succeeds and `glob` finds a file at `path` of `size` bytes;
the subprocess succeeds but `glob` finds nothing; `subprocess.TimeoutExpired`
is raised; `subprocess.CalledProcessError` is raised and the computed
`error_msg` is `errMsg`; or some other exception with `str(e) = msg`. -/
inductive AttemptSignal where
  | success (path : Str) (size : Nat)
  | noFile
  | timeoutExpired
  | procError (errMsg : Str)
  | otherError (msg : Str)
  deriving DecidableEq

/-- One attempt of the environment: the signal plus the files the external
tool wrote on disk during the invocation (e.g. partial downloads). -/
structure AttemptEnv where
  sig : AttemptSignal
  produced : List Str

/-- What the handler hands back to the framework: a `FileResponse`
(status, path, media type, filename, size, and the files scheduled for
deletion after the bytes are sent) or an `HTTPException` (status, detail). -/
inductive Response where
  | file (status : Nat) (path : Str) (mediaType : Str) (filename : Str)
         (size : Nat) (afterSendDelete : List Str)
  | error (status : Nat) (detail : Str)
  deriving DecidableEq

/-- Observable events of one request: a call to
`await asyncio.sleep(random.uniform(lo, hi))`, one invocation of the
external tool, or a file appearing on disk during an invocation. -/
inductive Event where
  | sleep (lo hi : Nat)
  | invoke (attempt : Nat)
  | produced (path : Str)
  deriving DecidableEq

/-- src/main.py line 136. -/
def max_attempts : Nat := 3

/-- os.path.basename: everything after the last slash. -/
def basename (p : Str) : Str :=
  (p.reverse.takeWhile (fun c => !(c == '/'))).reverse

/-- The extension part of `os.path.splitext`: the suffix from the last dot
after the last slash, except that a basename consisting only of leading
dots has no extension. -/
def splitext_ext (p : Str) : Str :=
  let rev := p.reverse
  let extRev := rev.takeWhile (fun c => !(c == '.') && !(c == '/'))
  match rev.drop extRev.length with
  | '.' :: rest =>
    if (rest.takeWhile (fun c => !(c == '/'))).all (fun c => c == '.') then []
    else '.' :: extRev.reverse
  | _ => []

/-- src/main.py lines 178-184: the extension-to-media-type table. -/
def media_types : List (Str × Str) :=
  [((".m4a").toList, ("audio/mp4").toList),
   ((".webm").toList, ("audio/webm").toList),
   ((".opus").toList, ("audio/opus").toList),
   ((".mp3").toList, ("audio/mpeg").toList),
   ((".wav").toList, ("audio/wav").toList)]

/-- Association-list lookup, modelling Python dict.get with a default. -/
def lookupMedia : List (Str × Str) → Str → Option Str
  | [], _ => none
  | (k, v) :: rest, e => if e = k then some v else lookupMedia rest e

/-- src/main.py line 185: `media_types.get(file_ext, "audio/mpeg")`. -/
def mediaTypeForExt (e : Str) : Str :=
  (lookupMedia media_types e).getD (("audio/mpeg").toList)

/-- Media type of a served file: table lookup on the lowercased extension. -/
def mediaTypeForPath (path : Str) : Str :=
  mediaTypeForExt (lower (splitext_ext path))

/-- src/main.py line 169. -/
def msgNoFileDetail : Str := ("Audio file not found after download").toList

/-- src/main.py line 198. -/
def msgTimeout : Str := ("Download timeout - video may be too long").toList

/-- src/main.py line 209. -/
def msgFfmpeg : Str :=
  ("Audio conversion failed. Please install ffmpeg: https://ffmpeg.org/download.html").toList

/-- src/main.py line 223. -/
def msgBot : Str :=
  ("YouTube is blocking automated requests. Please try again later or use a different video.").toList

/-- src/main.py line 234. -/
def msgSsl : Str := ("SSL certificate verification failed. Please try again later.").toList

/-- src/main.py line 244: the f-string of the generic terminal failure. -/
def msgGeneric (errMsg : Str) : Str :=
  ("Failed to download audio after ").toList ++ (toString max_attempts).toList ++
    (" attempts: ").toList ++ errMsg

/-- src/main.py line 252: the f-string of the unexpected terminal failure. -/
def msgUnexpected (m : Str) : Str := ("Unexpected error: ").toList ++ m

/-- `str` of a starlette/FastAPI `HTTPException`, which renders as
"status: detail". -/
def strOfHTTPException (status : Nat) (detail : Str) : Str :=
  (toString status).toList ++ (": ").toList ++ detail

/-- The body of one loop iteration after the tool invocation, translated
from the try/except chain of src/main.py lines 138-254. Returns the
terminal response if the iteration returns or raises out of the loop
(`none` means `continue`), together with the `random.uniform` bounds of the
sleeps executed inside the failure branch.

On `noFile` the inner `raise HTTPException(500, ...)` of line 169 happens
inside the `try`, so it is caught by the handler's own
`except Exception as e` branch (lines 247-254) and treated like any other
unexpected exception, with `str(e)` rendering the HTTPException. -/
def attemptBody (attempt : Nat) (sig : AttemptSignal) : Option Response × List (Nat × Nat) :=
  match sig with
  | AttemptSignal.success path size =>
    (some (Response.file 200 path (mediaTypeForPath path) (basename path) size [path]), [])
  | AttemptSignal.noFile =>
    if attempt = max_attempts then
      (some (Response.error 500 (msgUnexpected (strOfHTTPException 500 msgNoFileDetail))), [])
    else (none, [])
  | AttemptSignal.timeoutExpired =>
    if attempt = max_attempts then (some (Response.error 408 msgTimeout), [])
    else (none, [])
  | AttemptSignal.procError errMsg =>
    if isConvToolErr errMsg then (some (Response.error 500 msgFfmpeg), [])
    else if isBotErr errMsg then
      (if attempt < max_attempts then (none, [(10, 20)])
       else (some (Response.error 429 msgBot), []))
    else if isSslErr errMsg then
      (if attempt < max_attempts then (none, [])
       else (some (Response.error 500 msgSsl), []))
    else
      (if attempt < max_attempts then (none, [(2, 5)])
       else (some (Response.error 500 (msgGeneric errMsg)), []))
  | AttemptSignal.otherError m =>
    if attempt = max_attempts then (some (Response.error 500 (msgUnexpected m)), [])
    else (none, [])

/-- src/main.py lines 142-145: every attempt after the first is preceded by
`await asyncio.sleep(random.uniform(3, 8))`. -/
def preSleeps (attempt : Nat) : List Event :=
  if 1 < attempt then [Event.sleep 3 8] else []

/-- The events of one executed loop iteration, in program order: the
pre-attempt delay, the tool invocation, the files the tool wrote, and the
failure-branch sleeps. -/
def iterEvents (env : Nat → AttemptEnv) (attempt : Nat) (sl : List (Nat × Nat)) : List Event :=
  preSleeps attempt ++ [Event.invoke attempt] ++
    (env attempt).produced.map Event.produced ++
    sl.map (fun p => Event.sleep p.1 p.2)

/-- The `for attempt in range(1, max_attempts + 1)` loop. `fuel` is the
structural bound (always instantiated above the loop length); falling off
the loop without returning yields `none`, like the Python function
returning None. -/
def runFrom (env : Nat → AttemptEnv) : Nat → Nat → Option Response × List Event
  | 0, _ => (none, [])
  | fuel + 1, attempt =>
    if max_attempts < attempt then (none, [])
    else
      match attemptBody attempt (env attempt).sig with
      | (some r, sl) => (some r, iterEvents env attempt sl)
      | (none, sl) =>
        ((runFrom env fuel (attempt + 1)).1,
          iterEvents env attempt sl ++ (runFrom env fuel (attempt + 1)).2)

/-- The retry loop of `download_youtube_audio`, returning the terminal
response together with the full event trace of the request. -/
def download_youtube_audio (env : Nat → AttemptEnv) : Option Response × List Event :=
  runFrom env (max_attempts + 1) 1

/-- Number of tool invocations recorded in a trace. -/
def countInvokes : List Event → Nat
  | [] => 0
  | Event.invoke _ :: es => countInvokes es + 1
  | _ :: es => countInvokes es

/-- Files that appeared on disk during the request, per the trace. -/
def producedIn (t : List Event) : List Str :=
  t.filterMap (fun e => match e with | Event.produced p => some p | _ => none)

/-- Files the handler deletes (schedules for deletion after send): only a
success `FileResponse` carries a cleanup, via its background task. -/
def deletionsOf (r : Option Response) : List Str :=
  match r with
  | some (Response.file _ _ _ _ _ dels) => dels
  | _ => []

/-- Files produced for the request that the handler never deletes. -/
def leakedFiles (env : Nat → AttemptEnv) : List Str :=
  (producedIn (download_youtube_audio env).2).filter
    (fun p => decide (p ∉ deletionsOf (download_youtube_audio env).1))

theorem countInvokes_append (l1 l2 : List Event) :
    countInvokes (l1 ++ l2) = countInvokes l1 + countInvokes l2 := by
  induction l1 with
  | nil => simp [countInvokes]
  | cons e es ih => cases e <;> simp [countInvokes, ih] <;> omega

theorem countInvokes_map_produced (l : List Str) :
    countInvokes (l.map Event.produced) = 0 := by
  induction l with
  | nil => rfl
  | cons x xs ih => simpa [countInvokes] using ih

theorem countInvokes_map_sleep (l : List (Nat × Nat)) :
    countInvokes (l.map (fun p => Event.sleep p.1 p.2)) = 0 := by
  induction l with
  | nil => rfl
  | cons x xs ih => simpa [countInvokes] using ih

theorem countInvokes_preSleeps (a : Nat) : countInvokes (preSleeps a) = 0 := by
  unfold preSleeps
  split <;> rfl

theorem countInvokes_iterEvents (env : Nat → AttemptEnv) (a : Nat) (sl : List (Nat × Nat)) :
    countInvokes (iterEvents env a sl) = 1 := by
  unfold iterEvents
  simp [countInvokes_append, countInvokes_map_produced, countInvokes_map_sleep,
    countInvokes_preSleeps, countInvokes]

theorem invoke_mem_iterEvents {env : Nat → AttemptEnv} {a j : Nat} {sl : List (Nat × Nat)} :
    Event.invoke j ∈ iterEvents env a sl ↔ j = a := by
  unfold iterEvents preSleeps
  split <;> simp [List.mem_append, List.mem_map]

/-- Every terminal response of the loop is produced by the body of some
attempt between the starting index and `max_attempts`. -/
theorem runFrom_some (env : Nat → AttemptEnv) :
    ∀ fuel a r, (runFrom env fuel a).1 = some r →
    ∃ n, a ≤ n ∧ n ≤ max_attempts ∧ (attemptBody n (env n).sig).1 = some r := by
  intro fuel
  induction fuel with
  | zero => intro a r h; simp [runFrom] at h
  | succ fuel ih =>
    intro a r h
    by_cases ha : max_attempts < a
    · simp [runFrom, ha] at h
    · simp only [runFrom, if_neg ha] at h
      rcases hb : attemptBody a (env a).sig with ⟨ores, sl⟩
      rw [hb] at h
      cases ores with
      | some r' =>
        simp at h
        exact ⟨a, Nat.le_refl a, Nat.le_of_not_lt ha, by rw [hb, h]⟩
      | none =>
        simp at h
        obtain ⟨n, h1, h2, h3⟩ := ih (a + 1) r h
        exact ⟨n, by omega, h2, h3⟩

/-- The loop makes at most `max_attempts + 1 - a` invocations when started
at attempt `a`. -/
theorem countInvokes_runFrom_le (env : Nat → AttemptEnv) :
    ∀ fuel a, countInvokes (runFrom env fuel a).2 ≤ max_attempts + 1 - a := by
  intro fuel
  induction fuel with
  | zero => intro a; simp [runFrom, countInvokes]
  | succ fuel ih =>
    intro a
    by_cases ha : max_attempts < a
    · simp [runFrom, ha, countInvokes]
    · simp only [runFrom, if_neg ha]
      rcases hb : attemptBody a (env a).sig with ⟨ores, sl⟩
      cases ores with
      | some r' =>
        simp [countInvokes_iterEvents]
        omega
      | none =>
        simp [countInvokes_append, countInvokes_iterEvents]
        have := ih (a + 1)
        omega

/-- If attempt `j` was invoked, then the loop reached it: `j` lies in range
and every earlier attempt from the start index on was non-terminal. -/
theorem invoke_mem_runFrom (env : Nat → AttemptEnv) :
    ∀ fuel a j, Event.invoke j ∈ (runFrom env fuel a).2 →
    a ≤ j ∧ j ≤ max_attempts ∧
      ∀ i, a ≤ i → i < j → (attemptBody i (env i).sig).1 = none := by
  intro fuel
  induction fuel with
  | zero => intro a j h; simp [runFrom] at h
  | succ fuel ih =>
    intro a j h
    by_cases ha : max_attempts < a
    · simp [runFrom, ha] at h
    · simp only [runFrom, if_neg ha] at h
      rcases hb : attemptBody a (env a).sig with ⟨ores, sl⟩
      rw [hb] at h
      cases ores with
      | some r' =>
        simp at h
        have hj : j = a := invoke_mem_iterEvents.mp h
        refine ⟨by omega, by omega, ?_⟩
        intro i hi1 hi2
        omega
      | none =>
        simp [List.mem_append] at h
        rcases h with h | h
        · have hj : j = a := invoke_mem_iterEvents.mp h
          refine ⟨by omega, by omega, ?_⟩
          intro i hi1 hi2
          omega
        · obtain ⟨h1, h2, h3⟩ := ih (a + 1) j h
          refine ⟨by omega, h2, ?_⟩
          intro i hi1 hi2
          rcases Nat.eq_or_lt_of_le hi1 with heq | hlt
          · rw [← heq, hb]
          · exact h3 i (by omega) hi2

/-- A ConversionToolMissing diagnostic makes the CalledProcessError branch
raise immediately, at any attempt index (src/main.py lines 206-210). -/
theorem attemptBody_convToolMissing (a : Nat) (m : Str)
    (h : classify m false = FailureKind.ConversionToolMissing) :
    attemptBody a (AttemptSignal.procError m) = (some (Response.error 500 msgFfmpeg), []) := by
  have hc := (classify_eq_CTM_iff m).mp h
  simp [attemptBody, hc]

/-- C2: the loop invokes the external tool at most `max_attempts` (3) times;
once an invocation fails with a diagnostic classifying as
ConversionToolMissing, no later attempt is invoked; and such a failure on
attempt 1 ends the request after exactly one invocation. -/
theorem download_attempt_cap (env : Nat → AttemptEnv) :
    countInvokes (download_youtube_audio env).2 ≤ max_attempts ∧
    (∀ k m, Event.invoke k ∈ (download_youtube_audio env).2 →
       (env k).sig = AttemptSignal.procError m →
       classify m false = FailureKind.ConversionToolMissing →
       ∀ j, k < j → Event.invoke j ∉ (download_youtube_audio env).2) ∧
    (∀ m, (env 1).sig = AttemptSignal.procError m →
       classify m false = FailureKind.ConversionToolMissing →
       countInvokes (download_youtube_audio env).2 = 1) := by
  refine ⟨?_, ?_, ?_⟩
  · have h := countInvokes_runFrom_le env (max_attempts + 1) 1
    simpa [download_youtube_audio] using h
  · intro k m hk hsig hcls j hkj hj
    obtain ⟨h1, h2, h3⟩ := invoke_mem_runFrom env (max_attempts + 1) 1 j hj
    obtain ⟨hk1, hk2, _⟩ := invoke_mem_runFrom env (max_attempts + 1) 1 k hk
    have hnone := h3 k hk1 hkj
    rw [hsig, attemptBody_convToolMissing k m hcls] at hnone
    simp at hnone
  · intro m hsig hcls
    have hterm := attemptBody_convToolMissing 1 m hcls
    unfold download_youtube_audio runFrom
    rw [if_neg (by decide : ¬ max_attempts < 1), hsig, hterm]
    simp [countInvokes_iterEvents]

/-- Witness for C2: a run whose first attempt fails with an ffmpeg
diagnostic makes exactly one invocation. -/
theorem download_attempt_cap_witness :
    countInvokes (download_youtube_audio
      (fun _ => ⟨AttemptSignal.procError (("ERROR: ffmpeg not found").toList), []⟩)).2 = 1 :=
  (download_attempt_cap
      (fun _ => ⟨AttemptSignal.procError (("ERROR: ffmpeg not found").toList), []⟩)).2.2
    (("ERROR: ffmpeg not found").toList) rfl (by decide)

theorem msgGeneric_contains_count (m : Str) :
    containsSub (msgGeneric m) ((toString max_attempts).toList) = true := by
  have hshape : msgGeneric m =
      ("Failed to download audio after ").toList ++
        ((toString max_attempts).toList ++ ((" attempts: ").toList ++ m)) := by
    simp [msgGeneric, List.append_assoc]
  rw [hshape]
  exact containsSub_append_right _ _ _
    (containsSub_left ((toString max_attempts).toList) ((" attempts: ").toList ++ m))

theorem msgGeneric_contains_raw (m : Str) : containsSub (msgGeneric m) m = true := by
  exact containsSub_append_right _ m m (containsSub_self m)

/-- C3: every terminal failure's HTTP status and error body are determined
by the failure kind of the attempt that raised it: Timeout gives 408;
BotDetection (and the RateLimited kind it subsumes) gives 429;
ConversionToolMissing gives 500 with a message naming ffmpeg; SslError
gives 500; Generic gives 500 with a message containing the attempt count
and the raw diagnostic; anything outside the expected failure surface
(a missing output file or an unexpected exception) gives 500. -/
theorem download_failure_status (env : Nat → AttemptEnv) (st : Nat) (detail : Str)
    (h : (download_youtube_audio env).1 = some (Response.error st detail)) :
    ∃ n, 1 ≤ n ∧ n ≤ max_attempts ∧
      (attemptBody n (env n).sig).1 = some (Response.error st detail) ∧
      match (env n).sig with
      | AttemptSignal.timeoutExpired => st = 408
      | AttemptSignal.procError m =>
          (classify m false = FailureKind.ConversionToolMissing →
             st = 500 ∧ containsSub detail (("ffmpeg").toList) = true) ∧
          ((classify m false = FailureKind.BotDetection ∨
              classify m false = FailureKind.RateLimited) → st = 429) ∧
          (classify m false = FailureKind.SslError → st = 500) ∧
          (classify m false = FailureKind.Generic →
             st = 500 ∧ containsSub detail ((toString max_attempts).toList) = true ∧
             containsSub detail m = true)
      | _ => st = 500 := by
  obtain ⟨n, h1, h2, h3⟩ := runFrom_some env (max_attempts + 1) 1 _ h
  refine ⟨n, h1, h2, h3, ?_⟩
  cases hsig : (env n).sig with
  | success path size =>
    rw [hsig] at h3
    simp [attemptBody] at h3
  | noFile =>
    rw [hsig] at h3
    by_cases hn : n = max_attempts <;> simp [attemptBody, hn] at h3
    omega
  | timeoutExpired =>
    rw [hsig] at h3
    by_cases hn : n = max_attempts <;> simp [attemptBody, hn] at h3
    omega
  | procError m =>
    rw [hsig] at h3
    by_cases hc1 : isConvToolErr m
    · have hCTM := (classify_eq_CTM_iff m).mpr hc1
      simp [attemptBody, hc1] at h3
      obtain ⟨hst, hdet⟩ := h3
      simp [hCTM]
      subst hst
      subst hdet
      exact ⟨rfl, by decide⟩
    · by_cases hc2 : isBotErr m
      · have hBot := (classify_eq_Bot_iff m).mpr ⟨by simpa using hc1, hc2⟩
        by_cases hn : n < max_attempts <;>
          simp [attemptBody, hc1, hc2, hn] at h3
        obtain ⟨hst, hdet⟩ := h3
        simp [hBot]
        omega
      · by_cases hc3 : isSslErr m
        · have hSsl := (classify_eq_Ssl_iff m).mpr
            ⟨by simpa using hc1, by simpa using hc2, hc3⟩
          by_cases hn : n < max_attempts <;>
            simp [attemptBody, hc1, hc2, hc3, hn] at h3
          obtain ⟨hst, hdet⟩ := h3
          simp [hSsl]
          omega
        · have hGen := (classify_eq_Gen_iff m).mpr
            ⟨by simpa using hc1, by simpa using hc2, by simpa using hc3⟩
          by_cases hn : n < max_attempts <;>
            simp [attemptBody, hc1, hc2, hc3, hn] at h3
          obtain ⟨hst, hdet⟩ := h3
          simp [hGen]
          subst hst
          subst hdet
          exact ⟨rfl, msgGeneric_contains_count m, msgGeneric_contains_raw m⟩
  | otherError m =>
    rw [hsig] at h3
    by_cases hn : n = max_attempts <;> simp [attemptBody, hn] at h3
    omega

/-- Witness for C3: three generic failures end in a 500 whose body embeds
the attempt count and raw diagnostic. -/
theorem download_failure_status_witness :
    ∃ n, 1 ≤ n ∧ n ≤ max_attempts ∧
      (attemptBody n ((fun _ => (⟨AttemptSignal.procError (("boom").toList), []⟩ : AttemptEnv)) n).sig).1 =
        some (Response.error 500 (msgGeneric (("boom").toList))) ∧
      match ((fun _ => (⟨AttemptSignal.procError (("boom").toList), []⟩ : AttemptEnv)) n).sig with
      | AttemptSignal.timeoutExpired => (500 : Nat) = 408
      | AttemptSignal.procError m =>
          (classify m false = FailureKind.ConversionToolMissing →
             (500 : Nat) = 500 ∧
               containsSub (msgGeneric (("boom").toList)) (("ffmpeg").toList) = true) ∧
          ((classify m false = FailureKind.BotDetection ∨
              classify m false = FailureKind.RateLimited) → (500 : Nat) = 429) ∧
          (classify m false = FailureKind.SslError → (500 : Nat) = 500) ∧
          (classify m false = FailureKind.Generic →
             (500 : Nat) = 500 ∧
               containsSub (msgGeneric (("boom").toList)) ((toString max_attempts).toList) = true ∧
               containsSub (msgGeneric (("boom").toList)) m = true)
      | _ => (500 : Nat) = 500 :=
  download_failure_status (fun _ => ⟨AttemptSignal.procError (("boom").toList), []⟩)
    500 (msgGeneric (("boom").toList)) (by decide)

/-- Inversion: the only way the loop body yields a `FileResponse` is the
success branch, which fills every field from the found file and schedules
exactly that file for after-send deletion. -/
theorem attemptBody_file_inv {n : Nat} {sig : AttemptSignal} {st : Nat} {path mt fn : Str}
    {sz : Nat} {dels : List Str}
    (h : (attemptBody n sig).1 = some (Response.file st path mt fn sz dels)) :
    sig = AttemptSignal.success path sz ∧ st = 200 ∧ mt = mediaTypeForPath path ∧
      fn = basename path ∧ dels = [path] := by
  cases sig with
  | success p s =>
    simp [attemptBody] at h
    obtain ⟨hst, hp, hmt, hfn, hs, hdels⟩ := h
    subst hp
    subst hs
    exact ⟨rfl, hst.symm, hmt.symm, hfn.symm, hdels.symm⟩
  | noFile => by_cases hn : n = max_attempts <;> simp [attemptBody, hn] at h
  | timeoutExpired => by_cases hn : n = max_attempts <;> simp [attemptBody, hn] at h
  | procError m =>
    by_cases hc1 : isConvToolErr m <;> by_cases hc2 : isBotErr m <;>
      by_cases hc3 : isSslErr m <;> by_cases hn : n < max_attempts <;>
      simp [attemptBody, hc1, hc2, hc3, hn] at h
  | otherError m => by_cases hn : n = max_attempts <;> simp [attemptBody, hn] at h

/-- Environment for the C4 counterexample: the tool writes a partial file
during attempt 1 and every attempt fails with a plain network error, so the
request ends in a terminal Generic failure. -/
def envLeak : Nat → AttemptEnv := fun n =>
  if n = 1 then
    ⟨AttemptSignal.procError (("connection reset").toList),
     [("downloads/leak.m4a.part").toList]⟩
  else ⟨AttemptSignal.procError (("connection reset").toList), []⟩

/-- C4 counterexample: a partial file produced during a failed attempt is
never deleted — no except-branch of `download_youtube_audio` performs any
cleanup — so the claim that every failure path deletes the partial files it
produced is false on this concrete run. -/
theorem download_leaks_partial_file :
    (download_youtube_audio envLeak).1 =
      some (Response.error 500 (msgGeneric (("connection reset").toList))) ∧
    leakedFiles envLeak = [("downloads/leak.m4a.part").toList] ∧
    leakedFiles envLeak ≠ [] := by
  exact ⟨by decide, by decide, by decide⟩

/-- C4 (amended): on success the served file — and only it — is scheduled
for deletion after the bytes are sent; on every failure path the handler
deletes nothing, so every file produced during the request's attempts is
leaked. -/
theorem cleanup_only_on_success (env : Nat → AttemptEnv) :
    (∀ st path mt fn sz dels,
       (download_youtube_audio env).1 = some (Response.file st path mt fn sz dels) →
       dels = [path]) ∧
    (∀ st detail,
       (download_youtube_audio env).1 = some (Response.error st detail) →
       deletionsOf (download_youtube_audio env).1 = [] ∧
       leakedFiles env = producedIn (download_youtube_audio env).2) := by
  constructor
  · intro st path mt fn sz dels h
    obtain ⟨n, h1, h2, h3⟩ := runFrom_some env (max_attempts + 1) 1 _ h
    exact (attemptBody_file_inv h3).2.2.2.2
  · intro st detail h
    have hdel : deletionsOf (download_youtube_audio env).1 = [] := by
      rw [h]
      rfl
    refine ⟨hdel, ?_⟩
    unfold leakedFiles
    rw [hdel]
    refine List.filter_eq_self.mpr ?_
    intro a ha
    simp

/-- Environment for the C4 witness success half. -/
def envOkC4 : Nat → AttemptEnv := fun _ =>
  ⟨AttemptSignal.success (("downloads/ok.m4a").toList) 10, [("downloads/ok.m4a").toList]⟩

/-- Witness for C4 (amended), exercising both halves: the success run
schedules exactly the served file for deletion, and the leaking failure run
deletes nothing. -/
theorem cleanup_only_on_success_witness :
    ([("downloads/ok.m4a").toList] : List Str) = [("downloads/ok.m4a").toList] ∧
    (deletionsOf (download_youtube_audio envLeak).1 = [] ∧
     leakedFiles envLeak = producedIn (download_youtube_audio envLeak).2) :=
  ⟨(cleanup_only_on_success envOkC4).1 200 (("downloads/ok.m4a").toList)
      (mediaTypeForPath (("downloads/ok.m4a").toList))
      (basename (("downloads/ok.m4a").toList)) 10 [("downloads/ok.m4a").toList] (by decide),
   (cleanup_only_on_success envLeak).2 500 (msgGeneric (("connection reset").toList)) (by decide)⟩

theorem lookupMedia_not_mem (l : List (Str × Str)) (e : Str) (h : e ∉ l.map Prod.fst) :
    lookupMedia l e = none := by
  induction l with
  | nil => rfl
  | cons kv rest ih =>
    rcases kv with ⟨k, v⟩
    have h1 : ¬ e = k := by
      intro hh
      exact h (by rw [List.map_cons, hh]; exact List.mem_cons_self k _)
    have h2 : e ∉ rest.map Prod.fst := by
      intro hh
      exact h (by rw [List.map_cons]; exact List.mem_cons_of_mem _ hh)
    simp [lookupMedia, h1, ih h2]

/-- The file served by end-to-end scenario 1 of the spec. -/
def p524 : Str := ("downloads/track524.m4a").toList

/-- Environment for end-to-end scenario 1: the tool succeeds on attempt 1
with a 524288-byte .m4a file. -/
def env524 : Nat → AttemptEnv := fun _ => ⟨AttemptSignal.success p524 524288, [p524]⟩

/-- C9: every successful download responds 200 with the file's bytes, the
basename as filename, a media type chosen from the fixed extension table
(audio/mpeg for unknown extensions), and schedules the served file for
deletion after the bytes are sent; concretely, a 524288-byte .m4a found on
attempt 1 yields 200 / audio/mp4 / 524288 bytes with the file deleted after
send. -/
theorem success_response_shape :
    (∀ env st path mt fn sz dels,
       (download_youtube_audio env).1 = some (Response.file st path mt fn sz dels) →
       st = 200 ∧ mt = mediaTypeForExt (lower (splitext_ext path)) ∧ fn = basename path ∧
       dels = [path] ∧
       ∃ n, 1 ≤ n ∧ n ≤ max_attempts ∧ (env n).sig = AttemptSignal.success path sz) ∧
    mediaTypeForExt ((".m4a").toList) = ("audio/mp4").toList ∧
    mediaTypeForExt ((".webm").toList) = ("audio/webm").toList ∧
    mediaTypeForExt ((".opus").toList) = ("audio/opus").toList ∧
    mediaTypeForExt ((".mp3").toList) = ("audio/mpeg").toList ∧
    mediaTypeForExt ((".wav").toList) = ("audio/wav").toList ∧
    (∀ e, e ∉ media_types.map Prod.fst → mediaTypeForExt e = ("audio/mpeg").toList) ∧
    download_youtube_audio env524 =
      (some (Response.file 200 p524 (("audio/mp4").toList) (("track524.m4a").toList)
         524288 [p524]),
       [Event.invoke 1, Event.produced p524]) := by
  refine ⟨?_, by decide, by decide, by decide, by decide, by decide, ?_, by decide⟩
  · intro env st path mt fn sz dels h
    obtain ⟨n, h1, h2, h3⟩ := runFrom_some env (max_attempts + 1) 1 _ h
    obtain ⟨hs, hst, hmt, hfn, hdels⟩ := attemptBody_file_inv h3
    exact ⟨hst, hmt, hfn, hdels, n, h1, h2, hs⟩
  · intro e he
    have hnone := lookupMedia_not_mem media_types e he
    simp [mediaTypeForExt, hnone]

/-- Witness for C9: scenario 1 run through the theorem, plus the fallback
at the unknown extension .ogg. -/
theorem success_response_shape_witness :
    ((200 : Nat) = 200 ∧
      ("audio/mp4").toList = mediaTypeForExt (lower (splitext_ext p524)) ∧
      ("track524.m4a").toList = basename p524 ∧
      ([p524] : List Str) = [p524] ∧
      ∃ n, 1 ≤ n ∧ n ≤ max_attempts ∧
        (env524 n).sig = AttemptSignal.success p524 524288) ∧
    mediaTypeForExt ((".ogg").toList) = ("audio/mpeg").toList :=
  ⟨success_response_shape.1 env524 200 p524 (("audio/mp4").toList)
      (("track524.m4a").toList) 524288 [p524] (by decide),
   success_response_shape.2.2.2.2.2.2.1 ((".ogg").toList) (by decide)⟩

/-- Environment where the tool reports success but glob finds no file. -/
def envNoFile : Nat → AttemptEnv := fun _ => ⟨AttemptSignal.noFile, []⟩

/-- C10: the inner `raise HTTPException(500, "Audio file not found after
download")` happens inside the try, so it is caught by the handler's own
generic `except Exception` branch instead of being surfaced: before the
last attempt it is silently retried (the body continues with no terminal
response), and only on the final attempt does the caller get a 500 whose
detail is the wrapped "Unexpected error: ..." text rather than the original
file-not-found message. -/
theorem noFile_wrapped_as_unexpected (n : Nat) (h : n < max_attempts) :
    attemptBody n AttemptSignal.noFile = (none, []) ∧
    attemptBody max_attempts AttemptSignal.noFile =
      (some (Response.error 500 (msgUnexpected (strOfHTTPException 500 msgNoFileDetail))), []) ∧
    msgUnexpected (strOfHTTPException 500 msgNoFileDetail) ≠ msgNoFileDetail ∧
    containsSub (msgUnexpected (strOfHTTPException 500 msgNoFileDetail))
      (("Unexpected error: ").toList) = true ∧
    (download_youtube_audio envNoFile).1 =
      some (Response.error 500 (msgUnexpected (strOfHTTPException 500 msgNoFileDetail))) := by
  refine ⟨?_, by decide, by decide, by decide, by decide⟩
  have hn : n ≠ max_attempts := by omega
  simp [attemptBody, hn]

/-- Witness for C10 at attempt 1. -/
theorem noFile_wrapped_as_unexpected_witness :
    attemptBody 1 AttemptSignal.noFile = (none, []) ∧
    attemptBody max_attempts AttemptSignal.noFile =
      (some (Response.error 500 (msgUnexpected (strOfHTTPException 500 msgNoFileDetail))), []) ∧
    msgUnexpected (strOfHTTPException 500 msgNoFileDetail) ≠ msgNoFileDetail ∧
    containsSub (msgUnexpected (strOfHTTPException 500 msgNoFileDetail))
      (("Unexpected error: ").toList) = true ∧
    (download_youtube_audio envNoFile).1 =
      some (Response.error 500 (msgUnexpected (strOfHTTPException 500 msgNoFileDetail))) :=
  noFile_wrapped_as_unexpected 1 (by decide)

/-- Environment for the C8 counterexample: every attempt fails with an SSL
diagnostic. -/
def envSsl : Nat → AttemptEnv := fun _ =>
  ⟨AttemptSignal.procError (("SSL: certificate verify failed").toList), []⟩

/-- C8 counterexample: after a retryable SslError failure the code sleeps
only the generic uniform(3, 8) pre-attempt delay — the SSL branch contains
no sleep at all — so the sleep before the next attempt is not drawn from
the claimed 2-5 backoff range (no uniform(2, 5) call occurs in the whole
run, and the call that does occur permits durations up to 8). -/
theorem ssl_backoff_not_short_range :
    classify (("SSL: certificate verify failed").toList) false = FailureKind.SslError ∧
    download_youtube_audio envSsl =
      (some (Response.error 500 msgSsl),
       [Event.invoke 1, Event.sleep 3 8, Event.invoke 2, Event.sleep 3 8, Event.invoke 3]) ∧
    Event.sleep 2 5 ∉ (download_youtube_audio envSsl).2 := by
  exact ⟨by decide, by decide, by decide⟩

/-- C8 (amended): only ConversionToolMissing is non-retryable; a
non-terminal BotDetection (or RateLimited, which the code folds into it)
failure sleeps uniform(10, 20) in its branch, a non-terminal Generic
failure sleeps uniform(2, 5) in its branch, while SslError and Timeout
failures have no kind-specific branch sleep; in addition every attempt
after the first is preceded by a uniform(3, 8) delay. -/
theorem backoff_ranges_by_kind (n : Nat) (m : Str) (h : n < max_attempts) :
    ((classify m false = FailureKind.BotDetection ∨
        classify m false = FailureKind.RateLimited) →
       attemptBody n (AttemptSignal.procError m) = (none, [(10, 20)])) ∧
    (classify m false = FailureKind.Generic →
       attemptBody n (AttemptSignal.procError m) = (none, [(2, 5)])) ∧
    (classify m false = FailureKind.SslError →
       attemptBody n (AttemptSignal.procError m) = (none, [])) ∧
    (classify m false = FailureKind.ConversionToolMissing →
       attemptBody n (AttemptSignal.procError m) = (some (Response.error 500 msgFfmpeg), [])) ∧
    attemptBody n AttemptSignal.timeoutExpired = (none, []) ∧
    (∀ k, 1 < k → preSleeps k = [Event.sleep 3 8]) := by
  refine ⟨?_, ?_, ?_, ?_, ?_, ?_⟩
  · intro hk
    rcases hk with hk | hk
    · obtain ⟨hc1, hc2⟩ := (classify_eq_Bot_iff m).mp hk
      simp [attemptBody, hc1, hc2, h]
    · exact absurd hk (classify_ne_RateLimited m false)
  · intro hk
    obtain ⟨hc1, hc2, hc3⟩ := (classify_eq_Gen_iff m).mp hk
    simp [attemptBody, hc1, hc2, hc3, h]
  · intro hk
    obtain ⟨hc1, hc2, hc3⟩ := (classify_eq_Ssl_iff m).mp hk
    simp [attemptBody, hc1, hc2, hc3, h]
  · intro hk
    exact attemptBody_convToolMissing n m hk
  · have hn : n ≠ max_attempts := by omega
    simp [attemptBody, hn]
  · intro k hk
    simp [preSleeps, hk]

/-- Witness for C8 (amended): branch sleeps at attempt 1 for a bot
diagnostic, a generic diagnostic, and an ssl diagnostic. -/
theorem backoff_ranges_by_kind_witness :
    attemptBody 1 (AttemptSignal.procError (("sign in to confirm").toList)) =
      (none, [(10, 20)]) ∧
    attemptBody 1 (AttemptSignal.procError (("boom").toList)) = (none, [(2, 5)]) ∧
    attemptBody 1 (AttemptSignal.procError (("ssl handshake").toList)) = (none, []) :=
  ⟨(backoff_ranges_by_kind 1 (("sign in to confirm").toList) (by decide)).1
      (Or.inl (by decide)),
   (backoff_ranges_by_kind 1 (("boom").toList) (by decide)).2.1 (by decide),
   (backoff_ranges_by_kind 1 (("ssl handshake").toList) (by decide)).2.2.1 (by decide)⟩

end YTDL
